import Mathlib

/-!
A verification development for the MutationService repository (a mutation-testing
orchestrator for Solidity projects).  The definitions below are shallow embeddings
of the TypeScript source: JavaScript numbers are modelled as exact rationals,
the file system as an association list from path strings to file contents,
JavaScript's stable `Array.prototype.sort` as a stable insertion sort, and the
wall clock observed by `new Date()` as an explicit string parameter.
-/

namespace MutationService

/-- Substring test on character lists: `charsStartWith pat l` is true when `pat`
is an initial segment of `l`.  Used to model JavaScript `String.includes`. -/
def charsStartWith : List Char → List Char → Bool
  | [], _ => true
  | _ :: _, [] => false
  | a :: as, b :: bs => a = b && charsStartWith as bs

/-- `charsContain pat l` is true when `pat` occurs contiguously inside `l`. -/
def charsContain (pat : List Char) : List Char → Bool
  | [] => charsStartWith pat []
  | l@(_ :: rest) => charsStartWith pat l || charsContain pat rest

/-- Model of JavaScript `s.includes(pat)`. -/
def strIncludes (s pat : String) : Bool :=
  charsContain pat.data s.data

/-- Model of JavaScript `s.startsWith(pat)`. -/
def strStartsWith (s pat : String) : Bool :=
  charsStartWith pat.data s.data

/-- Model of JavaScript `s.endsWith(pat)`. -/
def strEndsWith (s pat : String) : Bool :=
  charsStartWith pat.data.reverse s.data.reverse

/-- Whitespace for the purposes of JavaScript `String.prototype.trim`. -/
def isWsChar (c : Char) : Bool :=
  c = ' ' || c = '\t' || c = '\n' || c = '\r'

/-- Model of JavaScript `s.trim()`. -/
def strTrim (s : String) : String :=
  String.mk (((s.data.dropWhile isWsChar).reverse.dropWhile isWsChar).reverse)

/-- Accumulator pass behind `splitOnChar`. -/
def splitCharsAux (sep : Char) : List Char → List Char → List (List Char)
  | [], acc => [acc.reverse]
  | c :: rest, acc =>
      if c = sep then acc.reverse :: splitCharsAux sep rest []
      else splitCharsAux sep rest (c :: acc)

/-- Model of JavaScript `s.split(sep)` for a single-character separator. -/
def splitOnChar (sep : Char) (s : String) : List String :=
  (splitCharsAux sep s.data []).map String.mk

/-- Model of `path.join(a, b)` for the relative path components the tool uses. -/
def pathJoin (a b : String) : String := a ++ "/" ++ b

/-- The `status` field of a `MutationResult`
(`'killed' | 'survived' | 'timeout' | 'error'` in `src/types/index.ts`). -/
inductive Status where
  | killed
  | survived
  | timeout
  | error
  deriving DecidableEq, Repr

/-- Embedding of the `MutationResult` interface from `src/types/index.ts`,
restricted to the fields the mutation pipeline reads and writes.  `mutantId`
and `outputDir` model the dynamically attached properties used by
`retestSurvivedMutations`. -/
structure MutationResult where
  file : String
  line : Nat
  column : Nat
  mutationType : String
  original : String
  mutated : String
  status : Status
  testOutput : String
  mutantId : Option Nat := none
  outputDir : Option String := none
  deriving DecidableEq, Repr

/-- Boolean status test, mirroring `r.status === '...'` filters in the source. -/
def hasStatus (st : Status) (r : MutationResult) : Bool :=
  decide (r.status = st)

/-- `results.filter(r => r.status === 'killed').length`. -/
def killedCount (results : List MutationResult) : Nat :=
  (results.filter (hasStatus Status.killed)).length

/-- `results.filter(r => r.status === 'survived').length`. -/
def survivedCount (results : List MutationResult) : Nat :=
  (results.filter (hasStatus Status.survived)).length

/-- A mutant descriptor as parsed from the generator's `mutants.log`
(`parseGambitMutants` in `gambit.service.ts`). -/
structure Mutant where
  id : Nat
  mutationType : String
  file : String
  line : Nat
  column : Nat
  original : String
  mutated : String
  deriving DecidableEq, Repr

/-- Embedding of `getMutationSeverity` (`gambit.service.ts`, lines 1983-1996):
a fixed object lookup with default severity 2 for unmapped mutation types. -/
def getMutationSeverity (mutationType : String) : Nat :=
  if mutationType = "require-mutation" then 5
  else if mutationType = "assignment-mutation" then 4
  else if mutationType = "binary-op-mutation" then 3
  else if mutationType = "unary-operator-mutation" then 3
  else if mutationType = "swap-arguments-operator-mutation" then 4
  else if mutationType = "delete-expression-mutation" then 3
  else if mutationType = "elim-delegate-mutation" then 5
  else if mutationType = "if-cond-mutation" then 4
  else 2

/-- Embedding of `calculateMutantPriority` (`gambit.service.ts`, lines 2100-2117):
severity times ten plus keyword boosts read off the original snippet. -/
def calculateMutantPriority (mutant : MutationResult) : Nat :=
  let p0 := getMutationSeverity mutant.mutationType * 10
  let p1 := if strIncludes mutant.original ("require")
              || strIncludes mutant.original ("assert") then p0 + 20 else p0
  let p2 := if strIncludes mutant.original ("transfer")
              || strIncludes mutant.original ("send") then p1 + 15 else p1
  if strIncludes mutant.original ("owner")
      || strIncludes mutant.original ("admin") then p2 + 10 else p2

/-- JavaScript `Math.round(q * 100) / 100`, the 2-decimal rounding used by
`calculateGuardianScore`.  `Math.round` rounds half towards positive infinity,
exactly as Mathlib's `round`. -/
def round2 (q : ℚ) : ℚ :=
  ((round (q * 100) : ℤ) : ℚ) / 100

/-- Embedding of `calculateGuardianScore` (`gambit.service.ts`, lines 1949-1978). -/
def calculateGuardianScore (results : List MutationResult) : ℚ :=
  if results.length = 0 then 0
  else
    let totalMutants : ℚ := results.length
    let killedMutants : ℚ := killedCount results
    let survivedMutants := results.filter (hasStatus Status.survived)
    let baseScore := killedMutants / totalMutants * 100
    let severityPenalty : ℚ :=
      survivedMutants.foldl
        (fun acc mutant => acc + (getMutationSeverity mutant.mutationType : ℚ) * 2) 0
    let filesWithSurvivedMutants := (survivedMutants.map (fun m => m.file)).dedup.length
    let totalFiles := (results.map (fun m => m.file)).dedup.length
    let distributionBonus : ℚ :=
      if 1 < totalFiles then (filesWithSurvivedMutants : ℚ) / (totalFiles : ℚ) * 5 else 0
    let guardianScore := baseScore - severityPenalty + distributionBonus
    round2 (max 0 (min 100 guardianScore))

/-- The `basicMutationScore` computed in `generateMutationAnalysis`
(`gambit.service.ts`, line 1904). -/
def basicMutationScore (results : List MutationResult) : ℚ :=
  if 0 < results.length then (killedCount results : ℚ) / (results.length : ℚ) * 100 else 0

/-- Per-file (or per-type) counters accumulated by `analyzeByFile` and
`analyzeByMutationType`. -/
structure GroupStats where
  total : Nat
  killed : Nat
  survived : Nat
  score : ℚ
  severity : Nat := 0
  deriving DecidableEq, Repr

/-- One step of the `results.forEach` accumulation: bump the counters of `key`
inside an insertion-ordered association list (JavaScript object semantics for
non-numeric string keys). -/
def bumpGroup (sev : Nat) (acc : List (String × GroupStats)) (key : String)
    (st : Status) : List (String × GroupStats) :=
  let upd := fun (s : GroupStats) =>
    { s with
      total := s.total + 1
      killed := if st = Status.killed then s.killed + 1 else s.killed
      survived := if st = Status.survived then s.survived + 1 else s.survived }
  if acc.any (fun e => e.1 = key) then
    acc.map (fun e => if e.1 = key then (e.1, upd e.2) else e)
  else
    acc ++ [(key, upd { total := 0, killed := 0, survived := 0, score := 0, severity := sev })]

/-- Local kill rate assigned to every group
(`stats.score = stats.total > 0 ? (stats.killed / stats.total) * 100 : 0`). -/
def withScore (s : GroupStats) : GroupStats :=
  { s with score := if 0 < s.total then (s.killed : ℚ) / (s.total : ℚ) * 100 else 0 }

/-- A sorted `Object.entries` row: a group key together with its spread stats. -/
structure GroupEntry where
  key : String
  stats : GroupStats
  deriving DecidableEq, Repr

/-- Ascending-by-`score` comparison used by `analyzeByFile`'s stable sort. -/
def fileOrder (a b : GroupEntry) : Prop := a.stats.score ≤ b.stats.score

instance : DecidableRel fileOrder := fun _ _ => inferInstanceAs (Decidable (_ ≤ _))

instance : IsTotal GroupEntry fileOrder := ⟨fun _ _ => le_total _ _⟩

instance : IsTrans GroupEntry fileOrder := ⟨fun _ _ _ => le_trans⟩

/-- `score - severity * 5` ascending, the "most problematic" comparison of
`analyzeByMutationType`. -/
def typeOrder (a b : GroupEntry) : Prop :=
  a.stats.score - (a.stats.severity : ℚ) * 5 ≤ b.stats.score - (b.stats.severity : ℚ) * 5

instance : DecidableRel typeOrder := fun _ _ => inferInstanceAs (Decidable (_ ≤ _))

instance : IsTotal GroupEntry typeOrder := ⟨fun _ _ => le_total _ _⟩

instance : IsTrans GroupEntry typeOrder := ⟨fun _ _ _ => le_trans⟩

/-- Result shape of `analyzeByFile` / `analyzeByMutationType`. -/
structure GroupAnalysis where
  byKey : List (String × GroupStats)
  worst : List GroupEntry
  best : List GroupEntry
  deriving DecidableEq, Repr

/-- `array.slice(-n)`: the last `n` elements (all of them when shorter). -/
def sliceLast (n : Nat) (l : List GroupEntry) : List GroupEntry :=
  l.drop (l.length - n)

/-- Embedding of `analyzeByFile` (`gambit.service.ts`, lines 2001-2034).
JavaScript's `Array.prototype.sort` is stable, so it is modelled by the stable
`List.insertionSort`. -/
def analyzeByFile (results : List MutationResult) : GroupAnalysis :=
  let fileStats := results.foldl (fun acc r => bumpGroup 0 acc r.file r.status) []
  let scored := fileStats.map (fun e => (e.1, withScore e.2))
  let sortedFiles :=
    (scored.map (fun e => GroupEntry.mk e.1 e.2)).insertionSort fileOrder
  { byKey := scored
    worst := sortedFiles.take 5
    best := sliceLast 3 sortedFiles }

/-- Embedding of `analyzeByMutationType` (`gambit.service.ts`, lines 2039-2079). -/
def analyzeByMutationType (results : List MutationResult) : GroupAnalysis :=
  let typeStats :=
    results.foldl
      (fun acc r => bumpGroup (getMutationSeverity r.mutationType) acc r.mutationType r.status) []
  let scored := typeStats.map (fun e => (e.1, withScore e.2))
  let sortedTypes :=
    (scored.map (fun e => GroupEntry.mk e.1 e.2)).insertionSort typeOrder
  { byKey := scored
    worst := sortedTypes.take 3
    best := sliceLast 3 sortedTypes }

/-- A critical-gap row: the spread survived mutant plus its severity and
priority (`identifyCriticalGaps`). -/
structure CriticalGap where
  mutant : MutationResult
  severity : Nat
  priority : Nat
  deriving DecidableEq, Repr

/-- Descending-priority comparison `(a, b) => b.priority - a.priority`. -/
def gapOrder (a b : CriticalGap) : Prop := b.priority ≤ a.priority

instance : DecidableRel gapOrder := fun _ _ => inferInstanceAs (Decidable (_ ≤ _))

instance : IsTotal CriticalGap gapOrder := ⟨fun _ _ => le_total _ _⟩

instance : IsTrans CriticalGap gapOrder := ⟨fun _ _ _ h h' => le_trans h' h⟩

/-- Embedding of `identifyCriticalGaps` (`gambit.service.ts`, lines 2084-2095):
survived mutants decorated with severity and priority, stably sorted by
descending priority, truncated to the top 10. -/
def identifyCriticalGaps (results : List MutationResult) : List CriticalGap :=
  let survivedMutants := results.filter (hasStatus Status.survived)
  ((survivedMutants.map (fun mutant =>
      CriticalGap.mk mutant (getMutationSeverity mutant.mutationType)
        (calculateMutantPriority mutant))).insertionSort gapOrder).take 10

/-- Model of JavaScript default number-to-string rendering used in template
literals. -/
def numStr (q : ℚ) : String := toString q

/-- Model of JavaScript `q.toFixed(1)` for the non-negative scores the tool
renders. -/
def toFixed1 (q : ℚ) : String :=
  let n := round (q * 10)
  toString (n / 10) ++ "." ++ toString (n.natAbs % 10)

/-- Embedding of `generateRecommendations` (`gambit.service.ts`, lines 2122-2185). -/
def generateRecommendations (results : List MutationResult)
    (fileAnalysis typeAnalysis : GroupAnalysis) : List String :=
  let survivedMutants := results.filter (hasStatus Status.survived)
  if survivedMutants.length = 0 then
    ["🎉 Excellent! Your test suite caught all mutations. Consider maintaining this quality as you add new features."]
  else
    let fileRecs : List String :=
      match fileAnalysis.worst with
      | [] => []
      | worstFile :: _ =>
          ["🎯 Focus on " ++ worstFile.key ++ ": Has " ++ toString worstFile.stats.survived
            ++ " survived mutations (" ++ toFixed1 worstFile.stats.score ++ "% kill rate)"]
    let problematicTypes := typeAnalysis.worst.filter (fun t => 0 < t.stats.survived)
    let typeRecs : List String :=
      match problematicTypes with
      | [] => []
      | worstType :: _ =>
          ["⚠️  " ++ worstType.key ++ " mutations need attention: "
            ++ toString worstType.stats.survived ++ " survived (severity: "
            ++ toString worstType.stats.severity ++ "/5)"]
    let securityMutants := survivedMutants.filter (fun m =>
      decide (m.mutationType = "require-mutation")
        || decide (m.mutationType = "elim-delegate-mutation"))
    let securityRecs : List String :=
      if 0 < securityMutants.length then
        ["🛡️  Security concern: " ++ toString securityMutants.length
          ++ " security-related mutations survived. Add tests for error conditions and access controls."]
      else []
    let logicMutants := survivedMutants.filter (fun m =>
      decide (m.mutationType = "binary-op-mutation")
        || decide (m.mutationType = "unary-operator-mutation"))
    let logicRecs : List String :=
      if 0 < logicMutants.length then
        ["🧮 Logic testing: " ++ toString logicMutants.length
          ++ " arithmetic/logic mutations survived. Add tests for edge cases and boundary conditions."]
      else []
    let stateMutants := survivedMutants.filter (fun m =>
      decide (m.mutationType = "assignment-mutation"))
    let stateRecs : List String :=
      if 0 < stateMutants.length then
        ["📊 State verification: " ++ toString stateMutants.length
          ++ " assignment mutations survived. Add assertions to verify state changes in your tests."]
      else []
    let totalScore : ℚ := (killedCount results : ℚ) / (results.length : ℚ) * 100
    let scoreRecs : List String :=
      if totalScore < 50 then
        ["🔴 Critical: Very low mutation score. Consider adopting Test-Driven Development (TDD) practices."]
      else if totalScore < 75 then
        ["🟡 Moderate: Good start! Focus on testing error conditions and edge cases to improve coverage."]
      else if totalScore < 90 then
        ["🟢 Good: Strong test suite! Focus on the specific survived mutations for final improvements."]
      else []
    fileRecs ++ typeRecs ++ securityRecs ++ logicRecs ++ stateRecs ++ scoreRecs

/-- The `summary` object assembled by `generateMutationAnalysis`. -/
structure AnalysisSummary where
  totalMutants : Nat
  killedMutants : Nat
  survivedMutants : Nat
  errorMutants : Nat
  basicMutationScore : ℚ
  guardianScore : ℚ
  deriving DecidableEq, Repr

/-- The `analysis` object assembled by `generateMutationAnalysis`. -/
structure Analysis where
  summary : AnalysisSummary
  byFile : GroupAnalysis
  byMutationType : GroupAnalysis
  criticalGaps : List CriticalGap
  recommendations : List String
  deriving DecidableEq, Repr

/-- Embedding of `getScoreEmoji` (`gambit.service.ts`, lines 2279-2286). -/
def getScoreEmoji (score : ℚ) : String :=
  if 90 ≤ score then "🏆"
  else if 80 ≤ score then "🥇"
  else if 70 ≤ score then "🥈"
  else if 60 ≤ score then "🥉"
  else if 50 ≤ score then "⚠️"
  else "🚨"

/-- Embedding of `getScoreGrade` (`gambit.service.ts`, lines 2288-2295). -/
def getScoreGrade (score : ℚ) : String :=
  if 90 ≤ score then
    "**Grade: A** - Exceptional test quality! Your tests are robust and comprehensive."
  else if 80 ≤ score then
    "**Grade: B** - Good test coverage with room for improvement in critical areas."
  else if 70 ≤ score then
    "**Grade: C** - Moderate test quality. Focus on security and edge case testing."
  else if 60 ≤ score then
    "**Grade: D** - Below average. Significant gaps in test coverage detected."
  else if 50 ≤ score then
    "**Grade: F** - Poor test quality. Consider adopting Test-Driven Development."
  else
    "**Grade: F** - Critical issues detected. Immediate attention required for production readiness."

/-- Embedding of `describeMutationImpact` (`gambit.service.ts`, lines 2297-2310). -/
def describeMutationImpact (mutationType : String) : String :=
  if mutationType = "require-mutation" then "Security vulnerability - validation bypassed"
  else if mutationType = "assignment-mutation" then "State corruption - incorrect value assignments"
  else if mutationType = "binary-op-mutation" then "Logic error - incorrect calculations or comparisons"
  else if mutationType = "unary-operator-mutation" then "Logic error - incorrect unary operations"
  else if mutationType = "swap-arguments-operator-mutation" then "Parameter confusion - arguments in wrong order"
  else if mutationType = "delete-expression-mutation" then "Missing operation - code not executed"
  else if mutationType = "elim-delegate-mutation" then "Security risk - delegation behavior changed"
  else if mutationType = "if-cond-mutation" then "Control flow error - incorrect branching logic"
  else "Logic or behavior change detected"

/-- One critical-gap section of the report. -/
def gapSection (idx : Nat) (gap : CriticalGap) : String :=
  "### " ++ toString (idx + 1) ++ ". " ++ gap.mutant.file ++ ":" ++ toString gap.mutant.line
    ++ " (Priority: " ++ toString gap.priority ++ ")\n- **Mutation Type:** "
    ++ gap.mutant.mutationType ++ " (Severity: " ++ toString gap.severity
    ++ "/5)\n- **Change:** `" ++ gap.mutant.original ++ "` → `" ++ gap.mutant.mutated
    ++ "`\n- **Impact:** " ++ describeMutationImpact gap.mutant.mutationType ++ "\n"

/-- One worst-performing-file bullet of the report. -/
def worstFileLine (e : GroupEntry) : String :=
  "- **" ++ e.key ++ "**: " ++ toFixed1 e.stats.score ++ "% kill rate ("
    ++ toString e.stats.survived ++ "/" ++ toString e.stats.total ++ " survived)"

/-- One best-performing-file bullet of the report. -/
def bestFileLine (e : GroupEntry) : String :=
  "- **" ++ e.key ++ "**: " ++ toFixed1 e.stats.score ++ "% kill rate ("
    ++ toString e.stats.killed ++ "/" ++ toString e.stats.total ++ " killed)"

/-- One mutation-type section of the report. -/
def typeSection (e : GroupEntry) : String :=
  "### " ++ e.key ++ " (Severity: " ++ toString e.stats.severity
    ++ "/5)\n- **Performance:** " ++ toFixed1 e.stats.score
    ++ "% kill rate\n- **Breakdown:** " ++ toString e.stats.killed ++ " killed, "
    ++ toString e.stats.survived ++ " survived\n- **Impact:** "
    ++ describeMutationImpact e.key ++ "\n"

/-- Embedding of `generateMutationReport` (`gambit.service.ts`, lines 2190-2277).
The template literal is modelled as string concatenation; `now` is the
`new Date().toLocaleString()` value interpolated into the footer. -/
def generateMutationReport (analysis : Analysis) (now : String) : String :=
  let s := analysis.summary
  "# 🛡️ Guardian Mutation Analysis Report\n\n## 📊 Executive Summary\n\n**Guardian Mutation Score: "
    ++ numStr s.guardianScore ++ "/100** " ++ getScoreEmoji s.guardianScore
    ++ "\n\n- **Total Mutations Tested:** " ++ toString s.totalMutants
    ++ "\n- **Mutations Killed:** " ++ toString s.killedMutants
    ++ " (" ++ toFixed1 s.basicMutationScore ++ "%)"
    ++ "\n- **Mutations Survived:** " ++ toString s.survivedMutants
    ++ "\n- **Test Errors:** " ++ toString s.errorMutants
    ++ "\n\n### Guardian Score Explanation\nThe Guardian Score is an advanced metric that considers not just the percentage of killed mutations, but also:\n- **Severity weighting** - Critical mutations (security, state) penalize the score more\n- **Distribution bonus** - Better scores for comprehensive testing across files\n- **Priority adjustments** - Financial and access control mutations have higher impact\n\n"
    ++ getScoreGrade s.guardianScore
    ++ "\n\n---\n\n## 🎯 Critical Gaps Requiring Immediate Attention\n\n"
    ++ (if 0 < analysis.criticalGaps.length then
          String.intercalate ("\n") ((analysis.criticalGaps.take 5).mapIdx gapSection)
        else
          "🎉 No critical gaps found! All high-priority mutations were killed by your tests.")
    ++ "\n\n---\n\n## 📁 File-by-File Analysis\n\n### 🔴 Files Needing Attention\n"
    ++ String.intercalate ("\n") ((analysis.byFile.worst.take 3).map worstFileLine)
    ++ "\n\n### ✅ Best Performing Files\n"
    ++ String.intercalate ("\n") (analysis.byFile.best.map bestFileLine)
    ++ "\n\n---\n\n## 🧬 Mutation Type Analysis\n\n"
    ++ String.intercalate ("\n") (analysis.byMutationType.worst.map typeSection)
    ++ "\n\n---\n\n## 🎯 Actionable Recommendations\n\n"
    ++ String.intercalate ("\n")
        (analysis.recommendations.mapIdx (fun i rec => toString (i + 1) ++ ". " ++ rec))
    ++ "\n\n---\n\n## 📈 Next Steps\n\n1. **Immediate Action:** Address the top 3 critical gaps listed above\n2. **Focus Areas:** Prioritize files with the lowest kill rates  \n3. **Test Strategy:** Add tests for the most problematic mutation types\n4. **Validation:** Re-run mutation testing after implementing fixes\n\n---\n\n## 🎖️ Mutation Testing Best Practices\n\n- **Aim for 80%+ Guardian Score** for production-ready code\n- **Prioritize security-related mutations** (require, access control)\n- **Test edge cases and boundary conditions** to catch logic mutations\n- **Verify state changes** in your test assertions\n- **Use descriptive test names** that clearly indicate what behavior is being verified\n\n---\n\n*Report generated by Guardian Mutation Tester • "
    ++ now ++ "*\n"

/-- Return shape of `generateMutationAnalysis`. -/
structure MutationAnalysisResult where
  guardianScore : ℚ
  analysis : Analysis
  reportMarkdown : String
  deriving DecidableEq, Repr

/-- Embedding of `generateMutationAnalysis` (`gambit.service.ts`, lines
1888-1944).  The wall-clock value read while rendering the report
(`new Date().toLocaleString()`) is passed in as `now`; every other input is the
result list itself. -/
def generateMutationAnalysis (results : List MutationResult) (now : String) :
    MutationAnalysisResult :=
  let fileAnalysis := analyzeByFile results
  let mutationTypeAnalysis := analyzeByMutationType results
  let analysis : Analysis :=
    { summary :=
        { totalMutants := results.length
          killedMutants := killedCount results
          survivedMutants := survivedCount results
          errorMutants := (results.filter (hasStatus Status.error)).length
          basicMutationScore := basicMutationScore results
          guardianScore := calculateGuardianScore results }
      byFile := fileAnalysis
      byMutationType := mutationTypeAnalysis
      criticalGaps := identifyCriticalGaps results
      recommendations := generateRecommendations results fileAnalysis mutationTypeAnalysis }
  { guardianScore := calculateGuardianScore results
    analysis := analysis
    reportMarkdown := generateMutationReport analysis now }

/-! ### File-system model for the substitute/test/restore cycle -/

/-- The file system as an association list from path strings to file contents;
the first binding for a path wins. -/
abbrev Fs := List (String × String)

/-- Content of the file at `p`, or `none` when no such file exists. -/
def fsLookup : Fs → String → Option String
  | [], _ => none
  | (q, c) :: rest, p => if q = p then some c else fsLookup rest p

/-- Remove the file at `p` (models `fs.unlink`). -/
def fsRemove (fs : Fs) (p : String) : Fs :=
  fs.filter (fun e => !(decide (e.1 = p)))

/-- Create or overwrite the file at `p` with content `c`. -/
def fsWrite (fs : Fs) (p c : String) : Fs :=
  (p, c) :: fs

/-- Model of `fs.copyFile(src, dst)`: fails (returns `none`) exactly when the
source file does not exist. -/
def copyFile (fs : Fs) (src dst : String) : Option Fs :=
  match fsLookup fs src with
  | none => none
  | some c => some (fsWrite fs dst c)

/-- The `cleanup` closure of `testSingleMutant` (`src/unnamed/part_000`, lines
941-950): copy `backup -> original`, then delete the backup.  The returned flag
is true when the restore itself failed (the backup was missing), in which case
the file system is left untouched and the failure is only reported. -/
def restoreOriginal (fs : Fs) (backupFilePath originalFilePath : String) : Fs × Bool :=
  match copyFile fs backupFilePath originalFilePath with
  | none => (fs, true)
  | some fs1 => (fsRemove fs1 backupFilePath, false)

/-- Outcome of the `execAsync(testCommand)` call: the promise resolves on exit
code 0 and rejects both on a non-zero exit code and on `ETIMEDOUT`. -/
inductive TestOutcome where
  | pass (output : String)
  | fail (output : String)
  | timedOut (output : String)
  deriving DecidableEq, Repr

/-- How one evaluation ends: either the test step runs to completion, or the
process receives SIGINT/SIGTERM during the test run and the registered
interrupt handler performs the restore before exiting. -/
inductive EvalExit where
  | completes (o : TestOutcome)
  | interrupted
  deriving DecidableEq, Repr

/-- What one call of `testSingleMutant` leaves behind: the returned
`MutationResult` (`none` when the process was interrupted and exits without
returning), the file system after the unconditional restore, and whether the
restore step reported a failure. -/
structure EvalStep where
  result : Option MutationResult
  fs : Fs
  restoreError : Bool
  deriving DecidableEq, Repr

/-- `path.join(projectPath, originalSourceFile)`. -/
def originalFilePathOf (projectPath originalSourceFile : String) : String :=
  pathJoin projectPath originalSourceFile

/-- `path.join(projectPath, mutantOutputDir, 'mutants', mutant.id.toString(), originalSourceFile)`. -/
def mutantFilePathOf (projectPath mutantOutputDir : String) (id : Nat)
    (originalSourceFile : String) : String :=
  pathJoin projectPath
    (pathJoin mutantOutputDir
      (pathJoin ("mutants") (pathJoin (toString id) originalSourceFile)))

/-- The `MutationResult` object literals built inside `testSingleMutant`
(`mutant.line || 0`, `mutant.mutationType || 'unknown'`, and so on; a JavaScript
`||` default only fires for an empty string or a zero). -/
def mkEvalResult (originalSourceFile : String) (m : Mutant) (st : Status)
    (output : String) : MutationResult :=
  { file := originalSourceFile
    line := m.line
    column := m.column
    mutationType := if m.mutationType = "" then "unknown" else m.mutationType
    original := m.original
    mutated := m.mutated
    status := st
    testOutput := output }

/-- Embedding of `testSingleMutant` (`src/unnamed/part_000`, lines 927-1085;
the variant in `gambit.service.ts`, lines 775-854, is the same cycle without
the interrupt handler).  Step 1 backs the original up, step 2 substitutes the
mutant, step 3 runs the test command and classifies its outcome, and the
`finally` block (or the interrupt handler) unconditionally restores the
original from the backup.  A rejected test promise - non-zero exit or timeout -
is caught by the inner `catch` and classified `killed`; a failure of either
copy is caught by the outer `catch` and classified `error`. -/
def testSingleMutant (fs : Fs) (projectPath : String) (mutant : Mutant)
    (originalSourceFile mutantOutputDir : String) (exit : EvalExit) : EvalStep :=
  let originalFilePath := originalFilePathOf projectPath originalSourceFile
  let mutantFilePath := mutantFilePathOf projectPath mutantOutputDir mutant.id originalSourceFile
  let backupFilePath := originalFilePath ++ ".backup"
  match copyFile fs originalFilePath backupFilePath with
  | none =>
      let r := restoreOriginal fs backupFilePath originalFilePath
      { result := some (mkEvalResult originalSourceFile mutant Status.error ("copy failed"))
        fs := r.1, restoreError := r.2 }
  | some fs1 =>
      match copyFile fs1 mutantFilePath originalFilePath with
      | none =>
          let r := restoreOriginal fs1 backupFilePath originalFilePath
          { result := some (mkEvalResult originalSourceFile mutant Status.error ("copy failed"))
            fs := r.1, restoreError := r.2 }
      | some fs2 =>
          match exit with
          | EvalExit.interrupted =>
              let r := restoreOriginal fs2 backupFilePath originalFilePath
              { result := none, fs := r.1, restoreError := r.2 }
          | EvalExit.completes (TestOutcome.pass output) =>
              let r := restoreOriginal fs2 backupFilePath originalFilePath
              { result := some (mkEvalResult originalSourceFile mutant Status.survived output)
                fs := r.1, restoreError := r.2 }
          | EvalExit.completes (TestOutcome.fail output) =>
              let r := restoreOriginal fs2 backupFilePath originalFilePath
              { result := some (mkEvalResult originalSourceFile mutant Status.killed output)
                fs := r.1, restoreError := r.2 }
          | EvalExit.completes (TestOutcome.timedOut output) =>
              let r := restoreOriginal fs2 backupFilePath originalFilePath
              { result := some (mkEvalResult originalSourceFile mutant Status.killed output)
                fs := r.1, restoreError := r.2 }

/-! ### The iterative retest pass -/

/-- The falsiness test `if (!mutantId || !outputDir)` in
`retestSurvivedMutations`: the location info is missing when either property is
absent, a zero id, or an empty directory string. -/
def locMissing (m : MutationResult) : Bool :=
  decide (m.mutantId.getD 0 = 0) || decide (m.outputDir.getD "" = "")

/-- The mutant object rebuilt from a stored result
(`src/unnamed/part_000`, lines 1276-1286). -/
def mutantOfResult (m : MutationResult) : Mutant :=
  { id := m.mutantId.getD 0
    mutationType := m.mutationType
    file := m.file
    line := m.line
    column := m.column
    original := m.original
    mutated := m.mutated }

/-- One iteration of the retest loop over a previously survived mutation
(`src/unnamed/part_000`, lines 1249-1307): keep the old result when the
location info is missing or the mutant file no longer exists, otherwise
re-evaluate it with `testSingleMutant` and reattach the location info. -/
def retestOne (fs : Fs) (projectPath : String) (o : TestOutcome)
    (m : MutationResult) : MutationResult × Fs :=
  if locMissing m then (m, fs)
  else
    let mutantFilePath :=
      mutantFilePathOf projectPath (m.outputDir.getD ("")) (m.mutantId.getD 0) m.file
    match fsLookup fs mutantFilePath with
    | none => (m, fs)
    | some _ =>
        let step := testSingleMutant fs projectPath (mutantOfResult m) m.file
          (m.outputDir.getD ("")) (EvalExit.completes o)
        match step.result with
        | some r => ({ r with mutantId := m.mutantId, outputDir := m.outputDir }, step.fs)
        | none => (m, step.fs)

/-- The retest loop, with the test outcome of the `i`-th re-evaluated mutant
supplied by the oracle `runOf`. -/
def retestLoop (projectPath : String) (runOf : Nat → TestOutcome) :
    List MutationResult → Nat → Fs → List MutationResult × Fs
  | [], _, fs => ([], fs)
  | m :: rest, i, fs =>
      let first := retestOne fs projectPath (runOf i) m
      let others := retestLoop projectPath runOf rest (i + 1) first.2
      (first.1 :: others.1, others.2)

/-- Embedding of `retestSurvivedMutations` (`src/unnamed/part_000`, lines
1211-1320).  With no prior survivor the previous results are returned
unchanged; when the mutant directories of the previous run are gone the
function falls back to a full `runMutationTestingWithoutSetup` pass, modelled
here as `none`; otherwise the previously killed results are carried forward and
every previously survived mutation is re-tested, one result each. -/
def retestSurvivedMutations (projectPath : String) (previousResults : List MutationResult)
    (fs : Fs) (runOf : Nat → TestOutcome) (mutantDirsFound : Bool) :
    Option (List MutationResult × Fs) :=
  let survivedMutations := previousResults.filter (hasStatus Status.survived)
  if survivedMutations.length = 0 then some (previousResults, fs)
  else if !mutantDirsFound then none
  else
    let killedMutations := previousResults.filter (hasStatus Status.killed)
    let retested := retestLoop projectPath runOf survivedMutations 0 fs
    some (killedMutations ++ retested.1, retested.2)

/-! ### Import remappings passed to the mutant generator -/

/-- The allow-list filter of `runMutationTestingWithoutSetup`
(`gambit.service.ts`, lines 568-574): only remappings of well-known libraries
are kept, because forwarding the full `forge remappings` list crashes Gambit. -/
def essentialRemapping (mapping : String) : Bool :=
  strIncludes mapping ("@openzeppelin/contracts/=")
    || strIncludes mapping ("v4-core/=")
    || strIncludes mapping ("v4-periphery/=")
    || strIncludes mapping ("@uniswap/v4-core/=")
    || strIncludes mapping ("forge-std/=")

/-- Whether the `forge remappings` subprocess produced output or rejected. -/
inductive RemapDiscovery where
  | ok (output : String)
  | failed
  deriving DecidableEq, Repr

/-- The line cleanup applied to `forge remappings` output
(`gambit.service.ts`, lines 561-565). -/
def parseRemappings (output : String) : List String :=
  ((splitOnChar ('\n') (strTrim output)).filter (fun line =>
      decide (strTrim line ≠ "") && !(strStartsWith line ("Warning:")))).map (fun line => strTrim line)

/-- The `solcRemappings` value of `runMutationTestingWithoutSetup`
(`gambit.service.ts`, lines 557-580): declared as `[]`, replaced by the
filtered discovery output for a forge project, and left `[]` both for non-forge
projects and in the `catch` branch taken when discovery fails (which logs
"using defaults" but assigns nothing). -/
def autoDetectRemappings (isForgeProject : Bool) (d : RemapDiscovery) : List String :=
  if isForgeProject then
    match d with
    | RemapDiscovery.ok output => (parseRemappings output).filter essentialRemapping
    | RemapDiscovery.failed => []
  else []

/-- The `solc_remappings` field of the generated per-file Gambit config
(`gambit.service.ts`, lines 650-652): present only when the detected list is
non-empty. -/
def gambitConfigRemappings (isForgeProject : Bool) (d : RemapDiscovery) :
    Option (List String) :=
  let solcRemappings := autoDetectRemappings isForgeProject d
  if 0 < solcRemappings.length then some solcRemappings else none

/-- The fallback default remapping list for forge projects, from the `catch`
branch of `setupGambitConfigWithoutDependencies` (`gambit.service.ts`, lines
395-401).  That setup function only logs its findings; the list it computes is
never handed to a generator invocation. -/
def defaultForgeRemappings : List String :=
  ["@openzeppelin/contracts/=lib/openzeppelin-contracts/contracts/",
   "@uniswap/v4-core/=lib/v4-core/",
   "v4-core/=lib/v4-core/src/",
   "forge-std/=lib/forge-std/src/",
   "ds-test/=lib/ds-test/src/"]

/-! ### Repository acquisition and cleanup -/

/-- How a run names its project: a caller-supplied local path or a remote
repository URL to clone. -/
inductive RepoSource where
  | localPath (p : String)
  | remote (url : String)
  deriving DecidableEq, Repr

/-- Model of `path.resolve` on the caller-supplied path (the identity on an
already absolute path). -/
def resolvePath (p : String) : String := p

/-- `path.basename(repoUrl, '.git')` as used by `GitService.cloneRepository`. -/
def repoBasename (url : String) : String :=
  let name := (splitOnChar ('/') url).getLastD url
  if strEndsWith name (".git") then String.mk (name.data.take (name.data.length - 4)) else name

/-- The directory `GitService.cloneRepository` clones into and returns:
`path.join(targetDir, repoName)` inside the orchestrator's temporary
directory. -/
def clonePath (tempDir url : String) : String :=
  pathJoin tempDir (repoBasename url)

/-- The local variables `repoPath` / `isLocalMode` of `runCoverageAnalysis`. -/
structure OrchestratorVars where
  repoPath : Option String
  localFlag : Bool
  deriving DecidableEq, Repr

/-- Step 1 of `runCoverageAnalysis` (`src/commands/run.ts`, coverage command,
lines 301-328): a local path is resolved and `isLocalMode` is set; a remote URL
is cloned into the temporary directory, and a clone failure leaves `repoPath`
null because the exception propagates before the assignment. -/
def coverageAcquire (source : RepoSource) (cloneOk : Bool) (tempDir : String) :
    OrchestratorVars :=
  match source with
  | RepoSource.localPath p => { repoPath := some (resolvePath p), localFlag := true }
  | RepoSource.remote url =>
      { repoPath := if cloneOk then some (clonePath tempDir url) else none
        localFlag := false }

/-- The `finally` block of `runCoverageAnalysis` (`src/commands/run.ts`, lines
396-402): the path handed to `gitService.cleanup`, or `none` when cleanup is
skipped (`repoPath && !isLocalMode && options.cleanup`). -/
def coverageCleanupTarget (vars : OrchestratorVars) (cleanupOpt : Bool) : Option String :=
  match vars.repoPath with
  | some p => if !vars.localFlag && cleanupOpt then some p else none
  | none => none

/-- The `finally` block of `runMutationTest` (`src/commands/run.ts`, lines
158-164): that command always clones, so `repoPath` is either null or the
clone directory, and cleanup fires only on `repoPath && options.cleanup`. -/
def mutationCleanupTarget (url : String) (cloneOk cleanupOpt : Bool)
    (tempDir : String) : Option String :=
  let repoPath : Option String := if cloneOk then some (clonePath tempDir url) else none
  match repoPath with
  | some p => if cleanupOpt then some p else none
  | none => none

/-! ### Concrete example data used by witnesses and counterexamples -/

/-- A killed result in file `src/A.sol`. -/
def exKilledResult : MutationResult :=
  { file := "src/A.sol", line := 10, column := 2, mutationType := "binary-op-mutation",
    original := "a + b", mutated := "a - b", status := Status.killed,
    testOutput := "tests failed" }

/-- An errored result in the same file. -/
def exErrorResult : MutationResult :=
  { exKilledResult with status := Status.error, line := 11 }

/-- One killed and two errored results, all in one file and with no survivor:
here the guardian score is the 2-decimal rounding of 100/3. -/
def guardianCex : List MutationResult :=
  [exKilledResult, exErrorResult, { exErrorResult with line := 12 }]

/-- The survived mutant of the spec's end-to-end scenario 3: a
`require-mutation` whose original snippet is `require(amount > 0)`. -/
def exRequireSurvivor : MutationResult :=
  { file := "src/Vault.sol", line := 42, column := 5,
    mutationType := "require-mutation", original := "require(amount > 0)",
    mutated := "true", status := Status.survived, testOutput := "" }

/-! ## Helper lemmas -/

/-- A `forEach` accumulation is the sum of the mapped values. -/
lemma foldl_add_map_sum (f : MutationResult → ℚ) :
    ∀ (l : List MutationResult) (a : ℚ),
      l.foldl (fun acc x => acc + f x) a = a + (l.map f).sum := by
  intro l
  induction l with
  | nil => simp
  | cons x xs ih =>
      intro a
      simp only [List.foldl_cons, List.map_cons, List.sum_cons, ih]
      ring

/-- Rounding to two decimals keeps a value of `[0, 100]` inside `[0, 100]`. -/
lemma round2_bounds {q : ℚ} (h0 : 0 ≤ q) (h1 : q ≤ 100) :
    0 ≤ round2 q ∧ round2 q ≤ 100 := by
  unfold round2
  constructor
  · apply div_nonneg _ (by norm_num)
    have hz : (0 : ℤ) ≤ round (q * 100) := by
      rw [round_eq]
      apply Int.le_floor.mpr
      push_cast
      linarith
    exact_mod_cast hz
  · rw [div_le_iff₀ (by norm_num : (0:ℚ) < 100)]
    have hub : round (q * 100) ≤ 10000 := by
      rw [round_eq]
      have hlt : (⌊q * 100 + 1/2⌋ : ℤ) < 10001 := Int.floor_lt.mpr (by push_cast; linarith)
      omega
    calc ((round (q * 100) : ℤ) : ℚ) ≤ ((10000 : ℤ) : ℚ) := by exact_mod_cast hub
      _ = 100 * 100 := by norm_num

/-- The raw kill-rate percentage of a non-empty result list lies in `[0, 100]`. -/
lemma baseScore_bounds (results : List MutationResult) (h : results ≠ []) :
    0 ≤ (killedCount results : ℚ) / (results.length : ℚ) * 100 ∧
    (killedCount results : ℚ) / (results.length : ℚ) * 100 ≤ 100 := by
  have hl : 0 < results.length := List.length_pos.mpr h
  have hlq : (0:ℚ) < (results.length : ℚ) := by exact_mod_cast hl
  have hk : killedCount results ≤ results.length := List.length_filter_le _ _
  constructor
  · positivity
  · have hdiv : (killedCount results : ℚ) / (results.length : ℚ) ≤ 1 := by
      rw [div_le_one hlq]
      exact_mod_cast hk
    linarith

/-! ## Claim C4: the severity table -/

/-- C4 counterexample: the scorer's severity map has an entry the spec table
does not list, `if-cond-mutation`, and it is mapped to 4 rather than to the
default 2 the claim assigns to every unlisted type. -/
theorem getMutationSeverity_extra_entry :
    getMutationSeverity ("if-cond-mutation") = 4 ∧ (4 : ℕ) ≠ 2 ∧
    ("if-cond-mutation") ∉
      ["require-mutation", "elim-delegate-mutation", "assignment-mutation",
       "swap-arguments-operator-mutation", "binary-op-mutation",
       "unary-operator-mutation", "delete-expression-mutation"] := by
  refine ⟨by decide, by decide, by decide⟩

/-- C4 amended: `getMutationSeverity` maps the seven spec-listed mutation types
exactly as the spec table does, additionally maps `if-cond-mutation` to 4, and
maps every other mutation type to the default 2. -/
theorem getMutationSeverity_table :
    getMutationSeverity ("require-mutation") = 5 ∧
    getMutationSeverity ("elim-delegate-mutation") = 5 ∧
    getMutationSeverity ("assignment-mutation") = 4 ∧
    getMutationSeverity ("swap-arguments-operator-mutation") = 4 ∧
    getMutationSeverity ("binary-op-mutation") = 3 ∧
    getMutationSeverity ("unary-operator-mutation") = 3 ∧
    getMutationSeverity ("delete-expression-mutation") = 3 ∧
    getMutationSeverity ("if-cond-mutation") = 4 ∧
    ∀ t : String,
      t ∉ ["require-mutation", "elim-delegate-mutation", "assignment-mutation",
           "swap-arguments-operator-mutation", "binary-op-mutation",
           "unary-operator-mutation", "delete-expression-mutation",
           "if-cond-mutation"] →
      getMutationSeverity t = 2 := by
  refine ⟨by decide, by decide, by decide, by decide, by decide, by decide, by decide,
    by decide, ?_⟩
  intro t ht
  simp only [List.mem_cons, List.not_mem_nil, or_false, not_or] at ht
  obtain ⟨h1, h2, h3, h4, h5, h6, h7, h8⟩ := ht
  simp [getMutationSeverity, h1, h2, h3, h4, h5, h6, h7, h8]

/-- C4 witness: the amended default clause evaluated at a type outside the
table. -/
theorem getMutationSeverity_table_witness :
    ("swap-lines-mutation") ∉
      ["require-mutation", "elim-delegate-mutation", "assignment-mutation",
       "swap-arguments-operator-mutation", "binary-op-mutation",
       "unary-operator-mutation", "delete-expression-mutation",
       "if-cond-mutation"] ∧
    getMutationSeverity ("swap-lines-mutation") = 2 :=
  ⟨by decide, getMutationSeverity_table.2.2.2.2.2.2.2.2 ("swap-lines-mutation") (by decide)⟩

/-! ## Claim C5: critical-gap ranking -/

/-- C5: the priority of a survived mutant is its severity times ten plus the
keyword boosts (20 for `require`/`assert`, 15 for `transfer`/`send`, 10 for
`owner`/`admin` in the original snippet); the critical-gap list is pairwise
sorted by descending priority, has `min 10 (number of survivors)` entries, each
entry is a survived mutant of the input decorated with its severity and
priority, and the whole list is the 10-element prefix of a descending-sorted
permutation of all decorated survivors; the spec's example - a
`require-mutation` survivor whose snippet is `require(amount > 0)` - gets
priority 70. -/
theorem identifyCriticalGaps_spec :
    (∀ m : MutationResult,
      calculateMutantPriority m =
        getMutationSeverity m.mutationType * 10
          + (if strIncludes m.original ("require") || strIncludes m.original ("assert")
              then 20 else 0)
          + (if strIncludes m.original ("transfer") || strIncludes m.original ("send")
              then 15 else 0)
          + (if strIncludes m.original ("owner") || strIncludes m.original ("admin")
              then 10 else 0)) ∧
    (∀ results : List MutationResult,
      List.Pairwise gapOrder (identifyCriticalGaps results)) ∧
    (∀ results : List MutationResult,
      (identifyCriticalGaps results).length = min 10 (survivedCount results)) ∧
    (∀ (results : List MutationResult) (g : CriticalGap),
      g ∈ identifyCriticalGaps results →
      ∃ m ∈ results, m.status = Status.survived ∧
        g = CriticalGap.mk m (getMutationSeverity m.mutationType)
              (calculateMutantPriority m)) ∧
    (∀ results : List MutationResult,
      ∃ l : List CriticalGap,
        l.Perm ((results.filter (hasStatus Status.survived)).map (fun mutant =>
          CriticalGap.mk mutant (getMutationSeverity mutant.mutationType)
            (calculateMutantPriority mutant))) ∧
        List.Pairwise gapOrder l ∧
        identifyCriticalGaps results = l.take 10) ∧
    calculateMutantPriority exRequireSurvivor = 70 := by
  refine ⟨?_, ?_, ?_, ?_, ?_, by decide⟩
  · intro m
    simp only [calculateMutantPriority]
    split_ifs <;> omega
  · intro results
    have hs := List.sorted_insertionSort gapOrder
      ((results.filter (hasStatus Status.survived)).map (fun mutant =>
        CriticalGap.mk mutant (getMutationSeverity mutant.mutationType)
          (calculateMutantPriority mutant)))
    exact List.Pairwise.sublist (List.take_sublist 10 _) hs
  · intro results
    simp only [identifyCriticalGaps, survivedCount]
    rw [List.length_take, (List.perm_insertionSort gapOrder _).length_eq, List.length_map]
  · intro results g hg
    have h1 := List.mem_of_mem_take hg
    have h2 := (List.perm_insertionSort gapOrder _).subset h1
    rcases List.mem_map.mp h2 with ⟨m, hm, rfl⟩
    rcases List.mem_filter.mp hm with ⟨hmem, hst⟩
    exact ⟨m, hmem, of_decide_eq_true hst, rfl⟩
  · intro results
    exact ⟨_, List.perm_insertionSort gapOrder _,
      List.sorted_insertionSort gapOrder _, rfl⟩

/-- C5 witness: the gap list of a single survivor evaluated concretely. -/
theorem identifyCriticalGaps_spec_witness :
    (identifyCriticalGaps [exRequireSurvivor]).length
        = min 10 (survivedCount [exRequireSurvivor]) ∧
    min 10 (survivedCount [exRequireSurvivor]) = 1 :=
  ⟨identifyCriticalGaps_spec.2.2.1 [exRequireSurvivor], by decide⟩

/-! ## Claim C3: the guardian score -/

/-- Unfolding of `calculateGuardianScore` on a non-empty list into the spec's
base / severity-penalty / distribution-bonus shape. -/
lemma calculateGuardianScore_formula (results : List MutationResult)
    (hlen : ¬ results.length = 0) :
    calculateGuardianScore results =
      round2 (max 0 (min 100
        ((killedCount results : ℚ) / (results.length : ℚ) * 100
          - ((results.filter (hasStatus Status.survived)).map
              (fun m => (getMutationSeverity m.mutationType : ℚ) * 2)).sum
          + (if 1 < (results.map (fun m => m.file)).dedup.length then
               (((results.filter (hasStatus Status.survived)).map
                   (fun m => m.file)).dedup.length : ℚ)
                 / ((results.map (fun m => m.file)).dedup.length : ℚ) * 5
             else 0)))) := by
  simp only [calculateGuardianScore, hlen, if_false, foldl_add_map_sum, zero_add]

/-- Evaluation rule for `round2` once the floor of `q * 100 + 1/2` is known. -/
lemma round2_eq (q : ℚ) (n : ℤ) (hn : ⌊q * 100 + 1/2⌋ = n) :
    round2 q = (n : ℚ) / 100 := by
  rw [round2, round_eq, hn]

/-- C3 counterexample: for one killed and two errored results in a single file
(no survivor) the guardian score is the 2-decimal rounding 33.33 while the
basic kill-rate percentage is 100/3, so the two are not equal. -/
theorem calculateGuardianScore_round_cex :
    survivedCount guardianCex = 0 ∧
    (guardianCex.map (fun m => m.file)).dedup.length = 1 ∧
    calculateGuardianScore guardianCex ≠ basicMutationScore guardianCex := by
  refine ⟨by decide, by decide, ?_⟩
  have hform := calculateGuardianScore_formula guardianCex (by decide)
  have hfil : guardianCex.filter (hasStatus Status.survived) = [] := by decide
  have hk : killedCount guardianCex = 1 := by decide
  have hlen : guardianCex.length = 3 := by decide
  have hded : (guardianCex.map (fun m => m.file)).dedup.length = 1 := by decide
  have hb : basicMutationScore guardianCex = 100 / 3 := by
    rw [basicMutationScore, if_pos (by decide), hk, hlen]
    norm_num
  rw [hform, hfil, hk, hlen, hded, hb]
  simp only [List.map_nil, List.sum_nil, lt_irrefl, if_false, sub_zero, add_zero]
  have hinner : ((1:ℕ) : ℚ) / ((3:ℕ) : ℚ) * 100 = 100 / 3 := by push_cast; ring
  rw [hinner, min_eq_right (by norm_num : (100:ℚ)/3 ≤ 100),
    max_eq_right (by norm_num : (0:ℚ) ≤ 100/3)]
  have hfl : ⌊(100:ℚ) / 3 * 100 + 1/2⌋ = 3333 := by
    rw [Int.floor_eq_iff]; norm_num
  rw [round2_eq _ 3333 hfl]
  norm_num

/-- C3 amended: for a non-empty result list the guardian score equals
`round2 (clamp (base - severityPenalty + distributionBonus) 0 100)` with the
spec's components; it always lies in `[0, 100]`; and with zero survivors and a
single distinct file it equals the basic kill-rate percentage rounded to two
decimals. -/
theorem calculateGuardianScore_spec (results : List MutationResult)
    (h : results ≠ []) :
    calculateGuardianScore results =
      round2 (max 0 (min 100
        ((killedCount results : ℚ) / (results.length : ℚ) * 100
          - ((results.filter (hasStatus Status.survived)).map
              (fun m => (getMutationSeverity m.mutationType : ℚ) * 2)).sum
          + (if 1 < (results.map (fun m => m.file)).dedup.length then
               (((results.filter (hasStatus Status.survived)).map
                   (fun m => m.file)).dedup.length : ℚ)
                 / ((results.map (fun m => m.file)).dedup.length : ℚ) * 5
             else 0)))) ∧
    0 ≤ calculateGuardianScore results ∧ calculateGuardianScore results ≤ 100 ∧
    (survivedCount results = 0 →
      (results.map (fun m => m.file)).dedup.length = 1 →
      calculateGuardianScore results = round2 (basicMutationScore results)) := by
  have hlen : ¬ results.length = 0 := fun hl => h (List.length_eq_zero.mp hl)
  have hformula := calculateGuardianScore_formula results hlen
  have hclamp0 : (0:ℚ) ≤ max 0 (min 100
      ((killedCount results : ℚ) / (results.length : ℚ) * 100
        - ((results.filter (hasStatus Status.survived)).map
            (fun m => (getMutationSeverity m.mutationType : ℚ) * 2)).sum
        + (if 1 < (results.map (fun m => m.file)).dedup.length then
             (((results.filter (hasStatus Status.survived)).map
                 (fun m => m.file)).dedup.length : ℚ)
               / ((results.map (fun m => m.file)).dedup.length : ℚ) * 5
           else 0))) := le_max_left 0 _
  have hclamp100 : max 0 (min 100
      ((killedCount results : ℚ) / (results.length : ℚ) * 100
        - ((results.filter (hasStatus Status.survived)).map
            (fun m => (getMutationSeverity m.mutationType : ℚ) * 2)).sum
        + (if 1 < (results.map (fun m => m.file)).dedup.length then
             (((results.filter (hasStatus Status.survived)).map
                 (fun m => m.file)).dedup.length : ℚ)
               / ((results.map (fun m => m.file)).dedup.length : ℚ) * 5
           else 0))) ≤ 100 :=
    max_le (by norm_num) (min_le_left _ _)
  have hbounds := round2_bounds hclamp0 hclamp100
  refine ⟨hformula, by rw [hformula]; exact hbounds.1, by rw [hformula]; exact hbounds.2, ?_⟩
  intro hsurv hfiles
  have hnil : results.filter (hasStatus Status.survived) = [] :=
    List.length_eq_zero.mp hsurv
  have hbase := baseScore_bounds results h
  have hbasic : basicMutationScore results =
      (killedCount results : ℚ) / (results.length : ℚ) * 100 := by
    simp only [basicMutationScore, if_pos (Nat.pos_of_ne_zero hlen)]
  rw [hformula, hnil, hfiles, hbasic]
  simp only [List.map_nil, List.sum_nil, lt_irrefl, if_false, sub_zero, add_zero]
  rw [min_eq_right hbase.2, max_eq_right hbase.1]

/-- C3 witness: a fully killed single-file list where the guardian score equals
the rounded basic score, both evaluating to 100. -/
theorem calculateGuardianScore_spec_witness :
    calculateGuardianScore [exKilledResult] = round2 (basicMutationScore [exKilledResult]) ∧
    calculateGuardianScore [exKilledResult] = 100 := by
  refine ⟨(calculateGuardianScore_spec [exKilledResult] (by decide)).2.2.2 (by decide)
    (by decide), ?_⟩
  have hform := calculateGuardianScore_formula [exKilledResult] (by decide)
  have hfil : [exKilledResult].filter (hasStatus Status.survived) = [] := by decide
  have hk : killedCount [exKilledResult] = 1 := by decide
  have hded : ([exKilledResult].map (fun m => m.file)).dedup.length = 1 := by decide
  rw [hform, hfil, hk, hded]
  simp only [List.map_nil, List.sum_nil, lt_irrefl, if_false, sub_zero, add_zero,
    List.length_singleton]
  have hinner : ((1:ℕ) : ℚ) / ((1:ℕ) : ℚ) * 100 = 100 := by push_cast; ring
  rw [hinner, min_self, max_eq_right (by norm_num : (0:ℚ) ≤ 100)]
  have hfl : ⌊(100:ℚ) * 100 + 1/2⌋ = 10000 := by
    rw [Int.floor_eq_iff]; norm_num
  rw [round2_eq _ 10000 hfl]
  norm_num

/-! ## Claim C6: re-scoring the same result list -/

/-- String concatenation is left-cancellative. -/
lemma strAppendCancelLeft {s t u : String} (h : s ++ t = s ++ u) : t = u := by
  have hd := congrArg String.data h
  rw [String.data_append, String.data_append] at hd
  exact String.ext (List.append_cancel_left hd)

/-- String concatenation is right-cancellative. -/
lemma strAppendCancelRight {s t u : String} (h : t ++ s = u ++ s) : t = u := by
  have hd := congrArg String.data h
  rw [String.data_append, String.data_append] at hd
  exact String.ext (List.append_cancel_right hd)

/-- C6 counterexample: analysing the same result list at two different clock
readings produces two different report texts, because the report footer embeds
`new Date().toLocaleString()`; the computation is therefore not a pure function
of the result list alone. -/
theorem generateMutationAnalysis_clock_cex :
    (generateMutationAnalysis [exRequireSurvivor] ("6/1/2024, 10:00:00 AM")).reportMarkdown ≠
    (generateMutationAnalysis [exRequireSurvivor] ("6/1/2024, 10:05:00 AM")).reportMarkdown := by
  intro h
  simp only [generateMutationAnalysis, generateMutationReport] at h
  have h1 := strAppendCancelLeft (strAppendCancelRight h)
  exact absurd h1 (by decide)

/-- C6 amended: the analysis is a pure function of the result list - the
guardian score, summary, per-file and per-type breakdowns, critical gaps and
recommendations of two runs over the same list are identical - and the report
texts of two runs are identical exactly when the two runs observe the same
clock reading for the generation-timestamp footer. -/
theorem generateMutationAnalysis_pure (results : List MutationResult)
    (t1 t2 : String) :
    (generateMutationAnalysis results t1).guardianScore =
      (generateMutationAnalysis results t2).guardianScore ∧
    (generateMutationAnalysis results t1).analysis =
      (generateMutationAnalysis results t2).analysis ∧
    ((generateMutationAnalysis results t1).reportMarkdown =
        (generateMutationAnalysis results t2).reportMarkdown ↔ t1 = t2) := by
  refine ⟨rfl, rfl, ?_, ?_⟩
  · intro h
    simp only [generateMutationAnalysis, generateMutationReport] at h
    exact strAppendCancelLeft (strAppendCancelRight h)
  · intro h
    rw [h]

/-- C6 witness: the time-independent components coincide on a concrete list and
two concrete clock readings. -/
theorem generateMutationAnalysis_pure_witness :
    (generateMutationAnalysis guardianCex ("today")).guardianScore =
      (generateMutationAnalysis guardianCex ("tomorrow")).guardianScore ∧
    (generateMutationAnalysis guardianCex ("today")).analysis =
      (generateMutationAnalysis guardianCex ("tomorrow")).analysis :=
  ⟨(generateMutationAnalysis_pure guardianCex ("today") ("tomorrow")).1,
   (generateMutationAnalysis_pure guardianCex ("today") ("tomorrow")).2.1⟩

/-! ## File-system lemmas -/

lemma fsLookup_write_self (fs : Fs) (p c : String) :
    fsLookup (fsWrite fs p c) p = some c := by
  simp [fsWrite, fsLookup]

lemma fsLookup_write_ne (fs : Fs) {p q : String} (c : String) (h : p ≠ q) :
    fsLookup (fsWrite fs p c) q = fsLookup fs q := by
  simp [fsWrite, fsLookup, h]

lemma fsLookup_remove_self (fs : Fs) (p : String) :
    fsLookup (fsRemove fs p) p = none := by
  induction fs with
  | nil => rfl
  | cons e rest ih =>
      simp only [fsRemove, List.filter_cons] at ih ⊢
      by_cases h : e.1 = p
      · simp [h, ih]
      · simp [h, fsLookup, ih]

lemma fsLookup_remove_ne (fs : Fs) {p q : String} (h : p ≠ q) :
    fsLookup (fsRemove fs p) q = fsLookup fs q := by
  induction fs with
  | nil => rfl
  | cons e rest ih =>
      simp only [fsRemove, List.filter_cons] at ih ⊢
      by_cases he : e.1 = p
      · have hq : ¬ e.1 = q := by rw [he]; exact h
        simp [he, fsLookup, hq, ih, h]
      · simp [he, fsLookup, ih]

lemma copyFile_eq_some {fs : Fs} {src dst : String} {fs' : Fs}
    (h : copyFile fs src dst = some fs') :
    ∃ d, fsLookup fs src = some d ∧ fs' = fsWrite fs dst d := by
  unfold copyFile at h
  cases hl : fsLookup fs src with
  | none => rw [hl] at h; exact absurd h (by simp)
  | some d =>
      rw [hl] at h
      exact ⟨d, rfl, by injection h with h; exact h.symm⟩

/-- A path never equals itself with the `.backup` suffix appended. -/
lemma ne_backupPath (s : String) : s ≠ s ++ ".backup" := by
  intro h
  have hlen := congrArg String.length h
  rw [String.length_append] at hlen
  have h7 : String.length (".backup") = 7 := rfl
  omega

/-- When the backup file holds `c`, the restore step succeeds, puts `c` back at
the original path, and deletes the backup. -/
lemma restoreOriginal_spec {fs : Fs} {bak orig c : String}
    (hb : fsLookup fs bak = some c) (hne : bak ≠ orig) :
    (restoreOriginal fs bak orig).2 = false ∧
    fsLookup (restoreOriginal fs bak orig).1 orig = some c ∧
    fsLookup (restoreOriginal fs bak orig).1 bak = none := by
  simp only [restoreOriginal, copyFile, hb]
  refine ⟨by trivial, ?_, ?_⟩
  · rw [fsLookup_remove_ne _ hne, fsLookup_write_self]
  · rw [fsLookup_remove_self]

/-! ## Claim C1: the unconditional restore -/

/-- C1: whenever the original source file exists before the evaluation, then
for every way the evaluation can end - test passed, test failed, test timed
out, the backup or substitution copy failed, or an interrupt arrived during the
test run - the restore step reports no error, the original path holds its
pre-evaluation content byte-for-byte afterwards, and the backup file is gone. -/
theorem testSingleMutant_restore (fs : Fs) (projectPath : String) (mutant : Mutant)
    (originalSourceFile mutantOutputDir : String) (ex : EvalExit) (c : String)
    (h : fsLookup fs (originalFilePathOf projectPath originalSourceFile) = some c) :
    (testSingleMutant fs projectPath mutant originalSourceFile mutantOutputDir ex).restoreError
        = false ∧
    fsLookup (testSingleMutant fs projectPath mutant originalSourceFile mutantOutputDir ex).fs
        (originalFilePathOf projectPath originalSourceFile) = some c ∧
    fsLookup (testSingleMutant fs projectPath mutant originalSourceFile mutantOutputDir ex).fs
        (originalFilePathOf projectPath originalSourceFile ++ ".backup") = none := by
  have hne : originalFilePathOf projectPath originalSourceFile ++ ".backup"
      ≠ originalFilePathOf projectPath originalSourceFile :=
    (ne_backupPath _).symm
  have hcopy1 : copyFile fs (originalFilePathOf projectPath originalSourceFile)
      (originalFilePathOf projectPath originalSourceFile ++ ".backup")
      = some (fsWrite fs (originalFilePathOf projectPath originalSourceFile ++ ".backup") c) := by
    simp only [copyFile, h]
  have hb1 : fsLookup
      (fsWrite fs (originalFilePathOf projectPath originalSourceFile ++ ".backup") c)
      (originalFilePathOf projectPath originalSourceFile ++ ".backup") = some c :=
    fsLookup_write_self _ _ _
  simp only [testSingleMutant, hcopy1]
  cases hm : copyFile
      (fsWrite fs (originalFilePathOf projectPath originalSourceFile ++ ".backup") c)
      (mutantFilePathOf projectPath mutantOutputDir mutant.id originalSourceFile)
      (originalFilePathOf projectPath originalSourceFile) with
  | none =>
      have hr := restoreOriginal_spec hb1 hne
      simp only [hm]
      exact ⟨hr.1, hr.2.1, hr.2.2⟩
  | some fs2 =>
      obtain ⟨d, _, rfl⟩ := copyFile_eq_some hm
      have hb2 : fsLookup
          (fsWrite (fsWrite fs (originalFilePathOf projectPath originalSourceFile ++ ".backup") c)
            (originalFilePathOf projectPath originalSourceFile) d)
          (originalFilePathOf projectPath originalSourceFile ++ ".backup") = some c := by
        rw [fsLookup_write_ne _ _ hne.symm, hb1]
      have hr := restoreOriginal_spec hb2 hne
      simp only [hm]
      cases ex with
      | interrupted => exact ⟨hr.1, hr.2.1, hr.2.2⟩
      | completes o =>
          cases o with
          | pass output => exact ⟨hr.1, hr.2.1, hr.2.2⟩
          | fail output => exact ⟨hr.1, hr.2.1, hr.2.2⟩
          | timedOut output => exact ⟨hr.1, hr.2.1, hr.2.2⟩

/-- C1 witness: a concrete evaluation with a present source file, evaluated on
an interrupted run. -/
theorem testSingleMutant_restore_witness :
    fsLookup
      [(originalFilePathOf ("/proj") ("src/A.sol"), "contract A"),
       (mutantFilePathOf ("/proj") ("gambit_out_A") 7 ("src/A.sol"), "contract Amut")]
      (originalFilePathOf ("/proj") ("src/A.sol")) = some ("contract A") ∧
    ((testSingleMutant
        [(originalFilePathOf ("/proj") ("src/A.sol"), "contract A"),
         (mutantFilePathOf ("/proj") ("gambit_out_A") 7 ("src/A.sol"), "contract Amut")]
        ("/proj")
        { id := 7, mutationType := "binary-op-mutation", file := "src/A.sol",
          line := 7, column := 3, original := "x * y", mutated := "x / y" }
        ("src/A.sol") ("gambit_out_A") EvalExit.interrupted).restoreError = false ∧
      fsLookup (testSingleMutant
        [(originalFilePathOf ("/proj") ("src/A.sol"), "contract A"),
         (mutantFilePathOf ("/proj") ("gambit_out_A") 7 ("src/A.sol"), "contract Amut")]
        ("/proj")
        { id := 7, mutationType := "binary-op-mutation", file := "src/A.sol",
          line := 7, column := 3, original := "x * y", mutated := "x / y" }
        ("src/A.sol") ("gambit_out_A") EvalExit.interrupted).fs
        (originalFilePathOf ("/proj") ("src/A.sol")) = some ("contract A") ∧
      fsLookup (testSingleMutant
        [(originalFilePathOf ("/proj") ("src/A.sol"), "contract A"),
         (mutantFilePathOf ("/proj") ("gambit_out_A") 7 ("src/A.sol"), "contract Amut")]
        ("/proj")
        { id := 7, mutationType := "binary-op-mutation", file := "src/A.sol",
          line := 7, column := 3, original := "x * y", mutated := "x / y" }
        ("src/A.sol") ("gambit_out_A") EvalExit.interrupted).fs
        (originalFilePathOf ("/proj") ("src/A.sol") ++ ".backup") = none) :=
  ⟨by decide,
   testSingleMutant_restore _ ("/proj") _ ("src/A.sol") ("gambit_out_A")
     EvalExit.interrupted ("contract A") (by decide)⟩

/-! ## Claim C2: classification of test outcomes -/

/-- A concrete mutant used by the classification counterexample and witness. -/
def exMutant : Mutant :=
  { id := 7, mutationType := "binary-op-mutation", file := "src/A.sol",
    line := 7, column := 3, original := "x * y", mutated := "x / y" }

/-- A file system holding the original source file and the mutant file. -/
def exFs : Fs :=
  [(originalFilePathOf ("/proj") ("src/A.sol"), "contract A"),
   (mutantFilePathOf ("/proj") ("gambit_out_A") 7 ("src/A.sol"), "contract Amut")]

/-- C2 counterexample: a test run that exceeds its timeout is classified
`killed`, not `timeout` - the `ETIMEDOUT` rejection of `execAsync` lands in the
same `catch` block as a failing test. -/
theorem testSingleMutant_timeout_cex :
    ((testSingleMutant exFs ("/proj") exMutant ("src/A.sol") ("gambit_out_A")
        (EvalExit.completes (TestOutcome.timedOut ("ETIMEDOUT")))).result.map
      MutationResult.status) = some Status.killed ∧
    some Status.killed ≠ some Status.timeout := by
  exact ⟨by decide, by decide⟩

/-- C2 amended: when the original source file exists, a test exit code of 0
yields `survived`, a non-zero exit yields `killed`, a timeout also yields
`killed` (never `timeout`), a missing mutant file at substitution time yields
`error` however the run would have ended, and no evaluation whatsoever
produces the `timeout` status. -/
theorem testSingleMutant_classification (fs : Fs) (projectPath : String)
    (mutant : Mutant) (originalSourceFile mutantOutputDir : String) (c : String)
    (h : fsLookup fs (originalFilePathOf projectPath originalSourceFile) = some c) :
    (fsLookup fs (mutantFilePathOf projectPath mutantOutputDir mutant.id originalSourceFile)
        ≠ none →
      ∀ output : String,
        ((testSingleMutant fs projectPath mutant originalSourceFile mutantOutputDir
            (EvalExit.completes (TestOutcome.pass output))).result.map
          MutationResult.status) = some Status.survived ∧
        ((testSingleMutant fs projectPath mutant originalSourceFile mutantOutputDir
            (EvalExit.completes (TestOutcome.fail output))).result.map
          MutationResult.status) = some Status.killed ∧
        ((testSingleMutant fs projectPath mutant originalSourceFile mutantOutputDir
            (EvalExit.completes (TestOutcome.timedOut output))).result.map
          MutationResult.status) = some Status.killed) ∧
    (mutantFilePathOf projectPath mutantOutputDir mutant.id originalSourceFile
        ≠ originalFilePathOf projectPath originalSourceFile ++ ".backup" →
      fsLookup fs (mutantFilePathOf projectPath mutantOutputDir mutant.id originalSourceFile)
        = none →
      ∀ ex : EvalExit,
        ((testSingleMutant fs projectPath mutant originalSourceFile mutantOutputDir
            ex).result.map MutationResult.status) = some Status.error) ∧
    (∀ (fs' : Fs) (ex : EvalExit),
      ((testSingleMutant fs' projectPath mutant originalSourceFile mutantOutputDir
          ex).result.map MutationResult.status) ≠ some Status.timeout) := by
  have hcopy1 : copyFile fs (originalFilePathOf projectPath originalSourceFile)
      (originalFilePathOf projectPath originalSourceFile ++ ".backup")
      = some (fsWrite fs (originalFilePathOf projectPath originalSourceFile ++ ".backup") c) := by
    simp only [copyFile, h]
  refine ⟨?_, ?_, ?_⟩
  · intro hm output
    have hm1 : ∃ d, fsLookup
        (fsWrite fs (originalFilePathOf projectPath originalSourceFile ++ ".backup") c)
        (mutantFilePathOf projectPath mutantOutputDir mutant.id originalSourceFile) = some d := by
      by_cases heq : originalFilePathOf projectPath originalSourceFile ++ ".backup"
          = mutantFilePathOf projectPath mutantOutputDir mutant.id originalSourceFile
      · exact ⟨c, by rw [← heq, fsLookup_write_self]⟩
      · cases hl : fsLookup fs
            (mutantFilePathOf projectPath mutantOutputDir mutant.id originalSourceFile) with
        | none => exact absurd hl hm
        | some d => exact ⟨d, by rw [fsLookup_write_ne _ _ heq, hl]⟩
    obtain ⟨d, hd⟩ := hm1
    have hcopy2 : copyFile
        (fsWrite fs (originalFilePathOf projectPath originalSourceFile ++ ".backup") c)
        (mutantFilePathOf projectPath mutantOutputDir mutant.id originalSourceFile)
        (originalFilePathOf projectPath originalSourceFile)
        = some (fsWrite
            (fsWrite fs (originalFilePathOf projectPath originalSourceFile ++ ".backup") c)
            (originalFilePathOf projectPath originalSourceFile) d) := by
      simp only [copyFile, hd]
    refine ⟨?_, ?_, ?_⟩ <;> simp [testSingleMutant, hcopy1, hcopy2, mkEvalResult]
  · intro hne hm ex
    have hcopy2 : copyFile
        (fsWrite fs (originalFilePathOf projectPath originalSourceFile ++ ".backup") c)
        (mutantFilePathOf projectPath mutantOutputDir mutant.id originalSourceFile)
        (originalFilePathOf projectPath originalSourceFile) = none := by
      simp only [copyFile, fsLookup_write_ne _ _ (Ne.symm hne), hm]
    simp [testSingleMutant, hcopy1, hcopy2, mkEvalResult]
  · intro fs' ex
    simp only [testSingleMutant]
    cases h1 : copyFile fs' (originalFilePathOf projectPath originalSourceFile)
        (originalFilePathOf projectPath originalSourceFile ++ ".backup") with
    | none => simp [h1, mkEvalResult]
    | some fs1 =>
        simp only [h1]
        cases h2 : copyFile fs1
            (mutantFilePathOf projectPath mutantOutputDir mutant.id originalSourceFile)
            (originalFilePathOf projectPath originalSourceFile) with
        | none => simp [h2, mkEvalResult]
        | some fs2 =>
            simp only [h2]
            cases ex with
            | interrupted => simp
            | completes o => cases o <;> simp [mkEvalResult]

/-- C2 witness: the three completed outcomes and the missing-mutant case
evaluated on a concrete file system. -/
theorem testSingleMutant_classification_witness :
    fsLookup exFs (originalFilePathOf ("/proj") ("src/A.sol")) = some ("contract A") ∧
    fsLookup exFs (mutantFilePathOf ("/proj") ("gambit_out_A") 7 ("src/A.sol")) ≠ none ∧
    ((testSingleMutant exFs ("/proj") exMutant ("src/A.sol") ("gambit_out_A")
        (EvalExit.completes (TestOutcome.pass ("ok")))).result.map
      MutationResult.status) = some Status.survived ∧
    ((testSingleMutant [] ("/proj") exMutant ("src/A.sol") ("gambit_out_A")
        (EvalExit.completes (TestOutcome.pass ("ok")))).result.map
      MutationResult.status) ≠ some Status.timeout :=
  ⟨by decide, by decide,
   ((testSingleMutant_classification exFs ("/proj") exMutant ("src/A.sol") ("gambit_out_A")
        ("contract A") (by decide)).1 (by decide) ("ok")).1,
   (testSingleMutant_classification exFs ("/proj") exMutant ("src/A.sol") ("gambit_out_A")
        ("contract A") (by decide)).2.2 [] (EvalExit.completes (TestOutcome.pass ("ok")))⟩

/-! ## Claims C7 and C10: the iterative retest pass -/

lemma killedCount_append (a b : List MutationResult) :
    killedCount (a ++ b) = killedCount a + killedCount b := by
  simp [killedCount, List.filter_append]

lemma survivedCount_append (a b : List MutationResult) :
    survivedCount (a ++ b) = survivedCount a + survivedCount b := by
  simp [survivedCount, List.filter_append]

/-- The carried-forward killed list has the same killed count as the full
previous list. -/
lemma killedCount_killedFilter (prev : List MutationResult) :
    killedCount (prev.filter (hasStatus Status.killed)) = killedCount prev := by
  unfold killedCount
  congr 1
  exact List.filter_eq_self.mpr (fun a ha => (List.mem_filter.mp ha).2)

/-- The carried-forward killed list contains no survivor. -/
lemma survivedCount_killedFilter (prev : List MutationResult) :
    survivedCount (prev.filter (hasStatus Status.killed)) = 0 := by
  unfold survivedCount
  rw [List.length_eq_zero, List.filter_eq_nil_iff]
  intro a ha
  have hk : a.status = Status.killed :=
    of_decide_eq_true (List.mem_filter.mp ha).2
  simp [hasStatus, hk]

/-- The retest loop returns exactly one result per input entry. -/
lemma retestLoop_length (projectPath : String) (runOf : Nat → TestOutcome) :
    ∀ (l : List MutationResult) (i : Nat) (fs : Fs),
      (retestLoop projectPath runOf l i fs).1.length = l.length := by
  intro l
  induction l with
  | nil => intro i fs; rfl
  | cons m rest ih => intro i fs; simp [retestLoop, ih]

/-- Identity preservation between a previous result and its retested
replacement: same file, position and snippets, and the same mutation type up to
the `|| 'unknown'` default applied to an empty type string. -/
def sameMutantSite (m r : MutationResult) : Prop :=
  r.file = m.file ∧ r.line = m.line ∧ r.column = m.column ∧
  r.original = m.original ∧ r.mutated = m.mutated ∧
  (r.mutationType = m.mutationType ∨
    (m.mutationType = "" ∧ r.mutationType = "unknown"))

/-- Every result `testSingleMutant` returns is one of the `mkEvalResult`
object literals over its own mutant. -/
lemma testSingleMutant_result_shape (fs : Fs) (projectPath : String)
    (mutant : Mutant) (srcFile outDir : String) (ex : EvalExit) :
    (testSingleMutant fs projectPath mutant srcFile outDir ex).result = none ∨
    ∃ st out, (testSingleMutant fs projectPath mutant srcFile outDir ex).result
        = some (mkEvalResult srcFile mutant st out) := by
  simp only [testSingleMutant]
  cases h1 : copyFile fs (originalFilePathOf projectPath srcFile)
      (originalFilePathOf projectPath srcFile ++ ".backup") with
  | none =>
      simp only [h1]
      exact Or.inr ⟨_, _, rfl⟩
  | some fs1 =>
      simp only [h1]
      cases h2 : copyFile fs1 (mutantFilePathOf projectPath outDir mutant.id srcFile)
          (originalFilePathOf projectPath srcFile) with
      | none =>
          simp only [h2]
          exact Or.inr ⟨_, _, rfl⟩
      | some fs2 =>
          simp only [h2]
          cases ex with
          | interrupted => exact Or.inl rfl
          | completes o => cases o <;> exact Or.inr ⟨_, _, rfl⟩

/-- A survivor with missing location info or a missing mutant file is kept
unchanged by the retest loop. -/
lemma retestOne_keep (fs : Fs) (projectPath : String) (o : TestOutcome)
    (m : MutationResult)
    (h : locMissing m = true ∨
      fsLookup fs (mutantFilePathOf projectPath (m.outputDir.getD (""))
        (m.mutantId.getD 0) m.file) = none) :
    retestOne fs projectPath o m = (m, fs) := by
  unfold retestOne
  rcases h with h | h
  · rw [if_pos h]
  · by_cases hl : locMissing m = true
    · rw [if_pos hl]
    · rw [Bool.not_eq_true] at hl
      simp [hl, h]

/-- One retest step preserves the mutant's identity fields. -/
lemma retestOne_site (fs : Fs) (projectPath : String) (o : TestOutcome)
    (m : MutationResult) : sameMutantSite m (retestOne fs projectPath o m).1 := by
  unfold retestOne
  by_cases hl : locMissing m = true
  · simp [hl, sameMutantSite]
  · rw [Bool.not_eq_true] at hl
    simp only [hl, Bool.false_eq_true, if_false]
    cases hml : fsLookup fs (mutantFilePathOf projectPath (m.outputDir.getD (""))
        (m.mutantId.getD 0) m.file) with
    | none => simp [sameMutantSite]
    | some d =>
        simp only [hml]
        rcases testSingleMutant_result_shape fs projectPath (mutantOfResult m) m.file
            (m.outputDir.getD ("")) (EvalExit.completes o) with hres | ⟨st, out, hres⟩
        · simp [hres, sameMutantSite]
        · simp only [hres]
          by_cases hmt : m.mutationType = "" <;>
            simp [mkEvalResult, mutantOfResult, sameMutantSite, hmt]

/-- The retest loop matches inputs to outputs one for one, preserving each
mutant's identity fields. -/
lemma retestLoop_site (projectPath : String) (runOf : Nat → TestOutcome) :
    ∀ (l : List MutationResult) (i : Nat) (fs : Fs),
      List.Forall₂ sameMutantSite l (retestLoop projectPath runOf l i fs).1 := by
  intro l
  induction l with
  | nil => intro i fs; exact List.Forall₂.nil
  | cons m rest ih =>
      intro i fs
      exact List.Forall₂.cons (retestOne_site fs projectPath (runOf i) m) (ih (i + 1) _)

/-- C7: whenever `retestSurvivedMutations` performs a retest pass (rather than
falling back to a full re-run), the killed count of the returned list is at
least the previous killed count and the survived count is at most the previous
survived count. -/
theorem retestSurvivedMutations_monotone (projectPath : String)
    (prev : List MutationResult) (fs : Fs) (runOf : Nat → TestOutcome)
    (res : List MutationResult) (fs' : Fs)
    (h : retestSurvivedMutations projectPath prev fs runOf true = some (res, fs')) :
    killedCount prev ≤ killedCount res ∧ survivedCount res ≤ survivedCount prev := by
  unfold retestSurvivedMutations at h
  by_cases hs : (prev.filter (hasStatus Status.survived)).length = 0
  · rw [if_pos hs] at h
    injection h with h
    rw [Prod.mk.injEq] at h
    obtain ⟨rfl, rfl⟩ := h
    exact ⟨le_refl _, le_refl _⟩
  · rw [if_neg hs] at h
    simp only [Bool.not_true, Bool.false_eq_true, if_false] at h
    injection h with h
    rw [Prod.mk.injEq] at h
    obtain ⟨hres, _⟩ := h
    subst hres
    have hlen := retestLoop_length projectPath runOf
      (prev.filter (hasStatus Status.survived)) 0 fs
    constructor
    · rw [killedCount_append, killedCount_killedFilter]
      exact Nat.le_add_right _ _
    · rw [survivedCount_append, survivedCount_killedFilter, Nat.zero_add]
      calc survivedCount
            (retestLoop projectPath runOf (prev.filter (hasStatus Status.survived)) 0 fs).1
          ≤ (retestLoop projectPath runOf (prev.filter (hasStatus Status.survived)) 0 fs).1.length :=
            List.length_filter_le _ _
        _ = survivedCount prev := hlen

/-- The previously survived entry of the retest example, with location info. -/
def exRetestSurvivor : MutationResult :=
  { file := "src/A.sol", line := 7, column := 3, mutationType := "binary-op-mutation",
    original := "x * y", mutated := "x / y", status := Status.survived,
    testOutput := "old", mutantId := some 7, outputDir := some ("gambit_out_A") }

/-- The previous result list of the retest example: one killed, one survived. -/
def exPrev : List MutationResult := [exKilledResult, exRetestSurvivor]

/-- A retest oracle under which every re-run test suite fails. -/
def runBoom : Nat → TestOutcome := fun _ => TestOutcome.fail ("boom")

/-- The result list the retest example returns: the carried-forward killed
result plus the re-tested (now killed) survivor. -/
def exRetestOut : List MutationResult :=
  [exKilledResult,
   { file := "src/A.sol", line := 7, column := 3, mutationType := "binary-op-mutation",
     original := "x * y", mutated := "x / y", status := Status.killed,
     testOutput := "boom", mutantId := some 7, outputDir := some ("gambit_out_A") }]

/-- The file system the retest example leaves behind (restored content at the
original path). -/
def exRetestFs : Fs :=
  [("/proj/src/A.sol", "contract A"),
   ("/proj/src/A.sol", "contract Amut"),
   ("/proj/src/A.sol", "contract A"),
   ("/proj/gambit_out_A/mutants/7/src/A.sol", "contract Amut")]

/-- C7 witness: the concrete retest pass, with the killed count rising from 1
to 2 and the survived count falling from 1 to 0. -/
theorem retestSurvivedMutations_monotone_witness :
    retestSurvivedMutations ("/proj") exPrev exFs runBoom true
        = some (exRetestOut, exRetestFs) ∧
    (killedCount exPrev ≤ killedCount exRetestOut ∧
      survivedCount exRetestOut ≤ survivedCount exPrev) ∧
    killedCount exPrev = 1 ∧ killedCount exRetestOut = 2 ∧
    survivedCount exPrev = 1 ∧ survivedCount exRetestOut = 0 :=
  ⟨by decide,
   retestSurvivedMutations_monotone ("/proj") exPrev exFs runBoom exRetestOut exRetestFs
     (by decide),
   by decide, by decide, by decide, by decide⟩

/-- C10: with at least one prior survivor and the mutant directories still
present, the returned list is exactly the previously killed results followed by
one result per previously survived mutation, so its length is the previous
killed count plus the previous survived count (prior `error`/`timeout` results
are dropped); a survivor with missing location info or a missing mutant file is
kept unchanged, and every retested entry keeps its mutant's identity fields. -/
theorem retestSurvivedMutations_shape (projectPath : String)
    (prev : List MutationResult) (fs : Fs) (runOf : Nat → TestOutcome)
    (hsurv : (prev.filter (hasStatus Status.survived)).length ≠ 0) :
    (∀ (res : List MutationResult) (fs' : Fs),
      retestSurvivedMutations projectPath prev fs runOf true = some (res, fs') →
      res = prev.filter (hasStatus Status.killed)
          ++ (retestLoop projectPath runOf (prev.filter (hasStatus Status.survived)) 0 fs).1 ∧
      res.length = killedCount prev + survivedCount prev) ∧
    (∀ (l : List MutationResult) (i : Nat) (fs0 : Fs),
      (retestLoop projectPath runOf l i fs0).1.length = l.length) ∧
    (∀ (fs0 : Fs) (o : TestOutcome) (m : MutationResult),
      locMissing m = true ∨
        fsLookup fs0 (mutantFilePathOf projectPath (m.outputDir.getD (""))
          (m.mutantId.getD 0) m.file) = none →
      retestOne fs0 projectPath o m = (m, fs0)) ∧
    (∀ (l : List MutationResult) (i : Nat) (fs0 : Fs),
      List.Forall₂ sameMutantSite l (retestLoop projectPath runOf l i fs0).1) := by
  refine ⟨?_, retestLoop_length projectPath runOf,
    fun fs0 o m hmiss => retestOne_keep fs0 projectPath o m hmiss,
    retestLoop_site projectPath runOf⟩
  intro res fs' h
  unfold retestSurvivedMutations at h
  rw [if_neg hsurv] at h
  simp only [Bool.not_true, Bool.false_eq_true, if_false] at h
  injection h with h
  rw [Prod.mk.injEq] at h
  obtain ⟨hres, _⟩ := h
  refine ⟨hres.symm, ?_⟩
  rw [← hres, List.length_append,
    retestLoop_length projectPath runOf (prev.filter (hasStatus Status.survived)) 0 fs]
  rfl

/-- C10 witness: the concrete retest pass has the killed-plus-retested shape
and length 2 = 1 + 1. -/
theorem retestSurvivedMutations_shape_witness :
    (exPrev.filter (hasStatus Status.survived)).length ≠ 0 ∧
    exRetestOut.length = killedCount exPrev + survivedCount exPrev ∧
    exRetestOut.length = 2 :=
  ⟨by decide,
   ((retestSurvivedMutations_shape ("/proj") exPrev exFs runBoom (by decide)).1
      exRetestOut exRetestFs (by decide)).2,
   by decide⟩

/-! ## Claim C8: cleanup never touches a caller-supplied local path -/

/-- C8: the coverage orchestrator's `finally` cleanup is skipped whenever the
run named a local path; whenever it does fire, the path it removes is the
provider-created clone directory inside the temporary directory; the mutation
orchestrator (which only ever clones) likewise only ever removes its clone
directory. -/
theorem cleanupTarget_never_local (source : RepoSource) (cloneOk : Bool)
    (tempDir : String) (cleanupOpt : Bool) :
    (∀ p, source = RepoSource.localPath p →
      coverageCleanupTarget (coverageAcquire source cloneOk tempDir) cleanupOpt = none) ∧
    (∀ q, coverageCleanupTarget (coverageAcquire source cloneOk tempDir) cleanupOpt = some q →
      ∃ url, source = RepoSource.remote url ∧ q = clonePath tempDir url) ∧
    (∀ url q, mutationCleanupTarget url cloneOk cleanupOpt tempDir = some q →
      q = clonePath tempDir url) := by
  refine ⟨?_, ?_, ?_⟩
  · intro p hp
    subst hp
    simp [coverageAcquire, coverageCleanupTarget]
  · intro q hq
    cases source with
    | localPath p => simp [coverageAcquire, coverageCleanupTarget] at hq
    | remote url =>
        cases cloneOk with
        | false => simp [coverageAcquire, coverageCleanupTarget] at hq
        | true =>
            refine ⟨url, rfl, ?_⟩
            by_cases hc : cleanupOpt
            · simp [coverageAcquire, coverageCleanupTarget, hc] at hq
              exact hq.symm
            · simp [coverageAcquire, coverageCleanupTarget, hc] at hq
  · intro url q hq
    cases cloneOk with
    | false => simp [mutationCleanupTarget] at hq
    | true =>
        by_cases hc : cleanupOpt
        · simp [mutationCleanupTarget, hc] at hq
          exact hq.symm
        · simp [mutationCleanupTarget, hc] at hq

/-- C8 witness: a run over a concrete local path, with cleanup requested, still
skips the cleanup call. -/
theorem cleanupTarget_never_local_witness :
    coverageCleanupTarget
      (coverageAcquire (RepoSource.localPath ("/home/dev/my-project")) true
        (".coverage-analysis-temp")) true = none :=
  (cleanupTarget_never_local (RepoSource.localPath ("/home/dev/my-project")) true
    (".coverage-analysis-temp") true).1 ("/home/dev/my-project") rfl

/-! ## Claim C9: remappings passed to the generator -/

/-- C9: when remapping discovery fails on a forge project, the generator config
carries no remapping list at all - not the documented fallback default list,
which is non-empty and is computed only by the setup step whose result never
reaches a generator invocation; when discovery succeeds, the forwarded list is
the allow-list filtered one (here a full list of three shrinks to its two
allow-listed entries). -/
theorem remappings_on_discovery_failure :
    gambitConfigRemappings true RemapDiscovery.failed = none ∧
    defaultForgeRemappings.length = 5 ∧
    gambitConfigRemappings true RemapDiscovery.failed ≠ some defaultForgeRemappings ∧
    gambitConfigRemappings true (RemapDiscovery.ok
        ("@openzeppelin/contracts/=lib/openzeppelin-contracts/contracts/\n@custom/=lib/custom/src/\nforge-std/=lib/forge-std/src/"))
      = some ["@openzeppelin/contracts/=lib/openzeppelin-contracts/contracts/",
              "forge-std/=lib/forge-std/src/"] :=
  ⟨by decide, by decide, by decide, by decide⟩

end MutationService
